import Mathlib

/-!
Verification of `pkg/cmd/dbcluster/describe.go` (kubeblocks `dbcluster describe`
command): the field projector `buildClusterInfo`, the fetch-and-aggregate loop in
`DescribeOptions.Run`, and the option preparation `DescribeOptions.Complete`,
shallowly embedded in Lean.

Go's untyped `interface\x7b\x7d` trees (as produced by the unstructured client) are
modelled by the inductive `GoVal`; a Go map access `m[k]` on a missing key yields
the zero value (`nil` interface), modelled by `GoVal.vNull`; a Go type assertion
`v.(T)` either succeeds or panics with the runtime's "interface conversion"
message, modelled by `Except String`.
-/

namespace OpenCli

/-- A Go `interface\x7b\x7d` value as decoded by the unstructured client:
string-keyed maps, arrays, strings, 64-bit integers, booleans, or nil. -/
inductive GoVal where
  | vNull : GoVal
  | vStr : String → GoVal
  | vInt : Int → GoVal
  | vBool : Bool → GoVal
  | vMap : List (String × GoVal) → GoVal
  | vArr : List GoVal → GoVal

/-- A `map[string]interface\x7b\x7d`, i.e. the `Object` field of an
`unstructured.Unstructured`. -/
def GoObj := List (String × GoVal)

/-- Go map indexing `m[k]`: the stored value, or the zero value (nil interface)
when the key is absent. -/
def goLookup : GoObj → String → GoVal
  | [], _ => .vNull
  | (k, v) :: rest, key => if k = key then v else goLookup rest key

/-- The Go runtime's dynamic type name of a value, as printed in an
"interface conversion" panic. -/
def goTypeName : GoVal → String
  | .vNull => "nil"
  | .vStr _ => "string"
  | .vInt _ => "int64"
  | .vBool _ => "bool"
  | .vMap _ => "map[string]interface \x7b\x7d"
  | .vArr _ => "[]interface \x7b\x7d"

/-- Go type assertion `v.(string)`: the string, or a panic. -/
def assertString : GoVal → Except String String
  | .vStr s => .ok s
  | v => .error ("interface conversion: interface \x7b\x7d is " ++ goTypeName v ++ ", not string")

/-- Go type assertion `v.(int64)`: the integer, or a panic. -/
def assertInt64 : GoVal → Except String Int
  | .vInt n => .ok n
  | v => .error ("interface conversion: interface \x7b\x7d is " ++ goTypeName v ++ ", not int64")

/-- Go type assertion `v.(map[string]interface\x7b\x7d)`: the map, or a panic. -/
def assertMap : GoVal → Except String GoObj
  | .vMap m => .ok m
  | v => .error ("interface conversion: interface \x7b\x7d is " ++ goTypeName v ++
      ", not map[string]interface \x7b\x7d")

/-- True iff every value of the association list is a string
(`NestedStringMap` succeeds only in that case). -/
def allStrings : List (String × GoVal) → Bool
  | [] => true
  | (_, .vStr _) :: rest => allStrings rest
  | _ => false

/-- The string pairs of an association list whose values are all strings. -/
def stringPairs (l : List (String × GoVal)) : List (String × String) :=
  l.filterMap fun kv => match kv.2 with
    | .vStr s => some (kv.1, s)
    | _ => none

/-- `unstructured.Unstructured.GetLabels`: reads `metadata.labels` via
`NestedStringMap`, which returns the string map when every step succeeds and
`nil` (hence an empty iteration) on any missing key, wrong shape, or
non-string value. -/
def getLabels (obj : GoObj) : List (String × String) :=
  match goLookup obj "metadata" with
  | .vMap m =>
    match goLookup m "labels" with
    | .vMap lm => if allStrings lm then stringPairs lm else []
    | _ => []
  | _ => []

/-- Modelled from the spec: the `utils.DBClusterInfo` record (the utils package
is not part of this repository snapshot); its fields are exactly the ones read
and written by `describe.go`. Field defaults are Go zero values. -/
structure DBClusterInfo where
  RootUser : String := ""
  DBPort : Int := 0
  DBNamespace : String := ""
  DBCluster : String := ""
  Labels : String := ""
  Version : String := ""
  Instances : Int := 0
  ServerId : Int := 0
  Secret : String := ""
  StartTime : String := ""
  Status : String := ""
  OnlineInstances : Int := 0
  Topology : String := ""
  Engine : String := ""
  Storage : Int := 0
deriving DecidableEq, Repr

/-- Modelled from the spec: the playground defaults provider (the playground
package is not part of this repository snapshot); it supplies the constant
default values `DefaultRootUser`, `DefaultPort`, `DefaultEngine`. -/
structure PlaygroundDefaults where
  DefaultRootUser : String
  DefaultPort : Int
  DefaultEngine : String
deriving DecidableEq, Repr

/-- The label loop of `buildClusterInfo`:
`info.Labels = info.Labels + fmt.Sprintf("%s:%s ", k, v)` over the label map. -/
def renderLabels (labels : List (String × String)) (acc : String) : String :=
  labels.foldl (fun acc kv => acc ++ kv.1 ++ ":" ++ kv.2 ++ " ") acc

/-- `buildClusterInfo(obj, info)` from `describe.go`: concatenates the labels,
then extracts `status`, `status.cluster`, `spec` and the seven required fields
with Go type assertions (any failure is a runtime panic, modelled as
`Except.error` carrying the panic message), derives `Topology`, and fills the
constant `Engine` and `Storage` fields. -/
def buildClusterInfo (defaults : PlaygroundDefaults) (obj : GoObj) (info : DBClusterInfo) :
    Except String DBClusterInfo := do
  let info := { info with Labels := renderLabels (getLabels obj) info.Labels }
  let status ← assertMap (goLookup obj "status")
  let cluster ← assertMap (goLookup status "cluster")
  let spec ← assertMap (goLookup obj "spec")
  let version ← assertString (goLookup spec "version")
  let instances ← assertInt64 (goLookup spec "instances")
  let serverId ← assertInt64 (goLookup spec "baseServerId")
  let secret ← assertString (goLookup spec "secretName")
  let startTime ← assertString (goLookup status "createTime")
  let clusterStatus ← assertString (goLookup cluster "status")
  let onlineInstances ← assertInt64 (goLookup cluster "onlineInstances")
  let topology := if instances = 1 then "Standalone" else "Cluster"
  return { info with
    Version := version
    Instances := instances
    ServerId := serverId
    Secret := secret
    StartTime := startTime
    Status := clusterStatus
    OnlineInstances := onlineInstances
    Topology := topology
    Engine := defaults.DefaultEngine
    Storage := 2 }

/-- The shape a document must have for every type assertion in
`buildClusterInfo` to succeed: the `spec`, `status`, `status.cluster` sub-maps
and the seven required fields, each with its exact expected type. -/
def requiredShape (obj : GoObj) : Bool :=
  match goLookup obj "status" with
  | .vMap status =>
    match goLookup status "cluster" with
    | .vMap cluster =>
      match goLookup obj "spec" with
      | .vMap spec =>
        (match goLookup spec "version" with | .vStr _ => true | _ => false) &&
        (match goLookup spec "instances" with | .vInt _ => true | _ => false) &&
        (match goLookup spec "baseServerId" with | .vInt _ => true | _ => false) &&
        (match goLookup spec "secretName" with | .vStr _ => true | _ => false) &&
        (match goLookup status "createTime" with | .vStr _ => true | _ => false) &&
        (match goLookup cluster "status" with | .vStr _ => true | _ => false) &&
        (match goLookup cluster "onlineInstances" with | .vInt _ => true | _ => false)
      | _ => false
    | _ => false
  | _ => false

/-- One entry of the builder's `Infos()` result (`resource.Info`): the fields
`describe.go` reads are `Namespace`, `Name` and the resource mapping handle
(`ResourceMapping().Resource`, kept opaque as a string). -/
structure Info where
  Mapping : String
  Namespace : String
  Name : String
deriving DecidableEq, Repr

/-- The fields of `DescribeOptions` the `Run` loop and `Complete` read or
write; `clientSet` models whether `o.client` has been assigned. -/
structure DescribeOptions where
  Namespace : String := ""
  EnforceNamespace : Bool := false
  AllNamespaces : Bool := false
  BuilderArgs : List String := []
  clientSet : Bool := false
deriving DecidableEq, Repr

/-- The mutable state threaded through the `for _, info := range infos` loop of
`Run`: summaries printed so far, the get-by-name calls issued so far (each a
`(mapping resource, namespace, name)` triple), the `sets.String` dedup set
`errs`, and the `allErrs` slice. -/
structure LoopState where
  printed : List DBClusterInfo
  fetchCalls : List (String × String × String)
  errsSet : List String
  allErrs : List String
deriving DecidableEq, Repr

/-- The per-iteration initial `clusterInfo` of the `Run` loop: zero value with
`RootUser` and `DBPort` from the playground defaults. -/
def initClusterInfo (defaults : PlaygroundDefaults) : DBClusterInfo :=
  { RootUser := defaults.DefaultRootUser, DBPort := defaults.DefaultPort }

/-- The `clusterInfo` record just before the fetch: the per-iteration initial
record with `DBNamespace` and `DBCluster` assigned from the located identity. -/
def loopInit (defaults : PlaygroundDefaults) (info : Info) : DBClusterInfo :=
  { initClusterInfo defaults with DBNamespace := info.Namespace, DBCluster := info.Name }

/-- The loop body of `DescribeOptions.Run` over the located `infos`.

`outerErr` is the function-level `err` variable as it stands when the loop is
entered; the branch `if err != nil` inside the loop tests this variable (the
`obj, err := ...` of the fetch declares a new, inner `err` that shadows it), so
the dedup/aggregation branch fires only when `outerErr` is non-nil — and `Run`
only reaches the loop after returning early on a non-nil `err`, so it always
enters with `outerErr = none`.

A fetch failure, and a `buildClusterInfo` panic, abort the whole loop with a
hard error (second component `some e`). -/
def processInfos (o : DescribeOptions) (defaults : PlaygroundDefaults)
    (fetch : String → String → String → Except String GoObj)
    (outerErr : Option String) : List Info → LoopState → LoopState × Option String
  | [], st => (st, none)
  | info :: rest, st =>
    match outerErr with
    | some e =>
      if st.errsSet.contains e then
        processInfos o defaults fetch outerErr rest st
      else
        processInfos o defaults fetch outerErr rest
          { st with allErrs := st.allErrs ++ [e], errsSet := st.errsSet ++ [e] }
    | none =>
      match fetch info.Mapping o.Namespace info.Name with
      | .error e =>
        ({ st with fetchCalls := st.fetchCalls ++ [(info.Mapping, o.Namespace, info.Name)] },
         some e)
      | .ok obj =>
        match buildClusterInfo defaults obj (loopInit defaults info) with
        | .error p =>
          ({ st with fetchCalls := st.fetchCalls ++ [(info.Mapping, o.Namespace, info.Name)] },
           some p)
        | .ok ci =>
          processInfos o defaults fetch outerErr rest
            { st with printed := st.printed ++ [ci],
                      fetchCalls := st.fetchCalls ++ [(info.Mapping, o.Namespace, info.Name)] }

/-- The diagnostic printed to `ErrOut` when no output was written and no error
recorded. -/
def noResourcesMsg (o : DescribeOptions) : String :=
  if o.AllNamespaces then "No resources found"
  else "No resources found in " ++ o.Namespace ++ " namespace."

/-- `utilerrors.NewAggregate`: nil for an empty slice, otherwise one combined
error. -/
def aggregateErr (allErrs : List String) : Option String :=
  if allErrs.isEmpty then none else some (String.intercalate ", " allErrs)

/-- The observable outcome of one `DescribeOptions.Run` call: the summaries
printed, the get-by-name calls issued, the lines written to `ErrOut`, the
`allErrs` slice at return, and the returned error. -/
structure RunOutcome where
  printed : List DBClusterInfo
  fetchCalls : List (String × String × String)
  stderr : List String
  allErrs : List String
  retErr : Option String
deriving DecidableEq, Repr

/-- `DescribeOptions.Run`: the builder result is abstracted as `rErr` (the
`r.Err()` value) and `infosRes` (the `r.Infos()` value); either being an error
returns it at once. Otherwise the loop runs over the infos with the
function-level `err` known nil, then the "No resources found" diagnostic is
printed when there were no infos and no recorded errors, and
`NewAggregate(allErrs)` is returned. -/
def Run (o : DescribeOptions) (defaults : PlaygroundDefaults)
    (fetch : String → String → String → Except String GoObj)
    (rErr : Option String) (infosRes : Except String (List Info)) : RunOutcome :=
  match rErr with
  | some e => ⟨[], [], [], [], some e⟩
  | none =>
    match infosRes with
    | .error e => ⟨[], [], [], [], some e⟩
    | .ok infos =>
      match processInfos o defaults fetch none infos ⟨[], [], [], []⟩ with
      | (st, some e) => ⟨st.printed, st.fetchCalls, [], st.allErrs, some e⟩
      | (st, none) =>
        let errLines := if infos.isEmpty && st.allErrs.isEmpty then [noResourcesMsg o] else []
        ⟨st.printed, st.fetchCalls, errLines, st.allErrs, aggregateErr st.allErrs⟩

/-- `types.PlaygroundSourceName`, the resource-type hint prepended to the
builder args; its concrete value lives outside this repository snapshot and no
verified property depends on it. -/
def PlaygroundSourceName : String := "playground"

/-- The external calls `Complete` can make, in order: reading the namespace
from the raw kubeconfig loader, obtaining the REST config, and constructing the
dynamic client. -/
inductive IOCall where
  | namespaceCall : IOCall
  | restConfigCall : IOCall
  | newClientCall : IOCall
deriving DecidableEq, Repr

/-- The `cmdutil.Factory` collaborator as `Complete` uses it:
`ToRawKubeConfigLoader().Namespace()`, `ToRESTConfig()`, and
`dynamic.NewForConfig` (config and client handles kept opaque). -/
structure Factory where
  NamespaceResult : Except String (String × Bool)
  RESTConfigResult : Except String Nat
  NewClientResult : Nat → Except String Nat

/-- `DescribeOptions.Complete(f, args)`: fails at once when `args` is empty;
otherwise reads the namespace, drops namespace enforcement under
all-namespaces, prepends the playground source name to the builder args, and
obtains the REST config — a REST config error makes `Complete` `return nil`
(the source returns `nil`, not `err`, on that branch) — then constructs the
dynamic client and stores it. Returns the mutated options, the returned error,
and the trace of external calls made. -/
def Complete (f : Factory) (o : DescribeOptions) (args : List String) :
    DescribeOptions × Option String × List IOCall :=
  if args.isEmpty then
    (o, some "You must specify the database cluster name to describe.", [])
  else
    match f.NamespaceResult with
    | .error e => (o, some e, [.namespaceCall])
    | .ok (ns, enforce) =>
      let o := { o with Namespace := ns, EnforceNamespace := enforce }
      let o := if o.AllNamespaces then { o with EnforceNamespace := false } else o
      let o := { o with BuilderArgs := PlaygroundSourceName :: args }
      match f.RESTConfigResult with
      | .error _ => (o, none, [.namespaceCall, .restConfigCall])
      | .ok cfg =>
        match f.NewClientResult cfg with
        | .error e => (o, some e, [.namespaceCall, .restConfigCall, .newClientCall])
        | .ok _ =>
          ({ o with clientSet := true }, none,
            [.namespaceCall, .restConfigCall, .newClientCall])

/-- Sample playground defaults used to instantiate the verified statements on
concrete inputs (the verified statements quantify over the defaults). -/
def sampleDefaults : PlaygroundDefaults :=
  { DefaultRootUser := "root", DefaultPort := 3306, DefaultEngine := "MySQL" }

/-- The spec's scenario document: `spec` with version "8.0.30", instances 1,
baseServerId 1, secretName "s1"; `status` with createTime "t0" and a `cluster`
sub-map with status "Running" and onlineInstances 1. -/
def scenarioDoc : GoObj :=
  [("spec", .vMap [("version", .vStr "8.0.30"), ("instances", .vInt 1),
     ("baseServerId", .vInt 1), ("secretName", .vStr "s1")]),
   ("status", .vMap [("createTime", .vStr "t0"),
     ("cluster", .vMap [("status", .vStr "Running"), ("onlineInstances", .vInt 1)])])]

/-- The scenario document with the required field `spec.version` removed. -/
def docMissingVersion : GoObj :=
  [("spec", .vMap [("instances", .vInt 1),
     ("baseServerId", .vInt 1), ("secretName", .vStr "s1")]),
   ("status", .vMap [("createTime", .vStr "t0"),
     ("cluster", .vMap [("status", .vStr "Running"), ("onlineInstances", .vInt 1)])])]

/-- The scenario document with the required field `status.createTime` removed. -/
def docMissingCreateTime : GoObj :=
  [("spec", .vMap [("version", .vStr "8.0.30"), ("instances", .vInt 1),
     ("baseServerId", .vInt 1), ("secretName", .vStr "s1")]),
   ("status", .vMap [
     ("cluster", .vMap [("status", .vStr "Running"), ("onlineInstances", .vInt 1)])])]

/-- The scenario document with the label set `\x7b"env":"prod"\x7d`. -/
def docEnvProd : GoObj :=
  ("metadata", GoVal.vMap [("labels", .vMap [("env", .vStr "prod")])]) :: scenarioDoc

/-- The summary the scenario document projects to (initial record
`initClusterInfo sampleDefaults`). -/
def scenarioSummary : DBClusterInfo :=
  { RootUser := "root", DBPort := 3306, DBNamespace := "", DBCluster := "",
    Labels := "", Version := "8.0.30", Instances := 1, ServerId := 1, Secret := "s1",
    StartTime := "t0", Status := "Running", OnlineInstances := 1,
    Topology := "Standalone", Engine := "MySQL", Storage := 2 }

/-- The summary `docEnvProd` projects to: as `scenarioSummary` but with the
label pair rendered. -/
def envProdSummary : DBClusterInfo := { scenarioSummary with Labels := "env:prod " }

/-- Concrete located identities for instantiating the `Run` statements. -/
def infoA : Info := ⟨"m", "nsA", "a"⟩

/-- Second concrete identity. -/
def infoB : Info := ⟨"m", "nsA", "b"⟩

/-- Third concrete identity. -/
def infoC : Info := ⟨"m", "nsA", "c"⟩

/-- A get-by-name capability that fails on name "b" with error "boom" and
returns the scenario document otherwise. -/
def fetchFailsOnB : String → String → String → Except String GoObj := fun _ _ name =>
  if name = "b" then .error "boom" else .ok scenarioDoc

/-- A get-by-name capability that always returns the scenario document. -/
def fetchAlwaysOk : String → String → String → Except String GoObj :=
  fun _ _ _ => .ok scenarioDoc

/-- Concrete options with command-level namespace "nsA". -/
def optNsA : DescribeOptions := { Namespace := "nsA" }

/-- Concrete options whose command-level namespace "cmd-ns" differs from the
namespace "id-ns" of the located identity `infoDiff`. -/
def optCmdNs : DescribeOptions := { Namespace := "cmd-ns" }

/-- A located identity whose own namespace differs from `optCmdNs.Namespace`. -/
def infoDiff : Info := ⟨"m", "id-ns", "c1"⟩

/-- The summary `Run optNsA sampleDefaults fetchFailsOnB` prints for `infoA`. -/
def summaryA : DBClusterInfo :=
  { scenarioSummary with DBNamespace := "nsA", DBCluster := "a" }

/-- A factory whose REST-config call fails. -/
def factoryBadConfig : Factory :=
  { NamespaceResult := .ok ("ns1", true), RESTConfigResult := .error "no config",
    NewClientResult := fun c => .ok c }

theorem except_bind_ok {ε α β : Type} {x : Except ε α} {f : α → Except ε β} {b : β} :
    (x >>= f) = .ok b ↔ ∃ a, x = .ok a ∧ f a = .ok b := by
  cases x <;> simp [Bind.bind, Except.bind]

theorem assertMap_ok {v : GoVal} {m : GoObj} : assertMap v = .ok m ↔ v = .vMap m := by
  cases v <;> simp [assertMap]

theorem assertString_ok {v : GoVal} {s : String} : assertString v = .ok s ↔ v = .vStr s := by
  cases v <;> simp [assertString]

theorem assertInt64_ok {v : GoVal} {n : Int} : assertInt64 v = .ok n ↔ v = .vInt n := by
  cases v <;> simp [assertInt64]

theorem buildClusterInfo_ok_inv {defaults : PlaygroundDefaults} {obj : GoObj}
    {info s : DBClusterInfo} (h : buildClusterInfo defaults obj info = .ok s) :
    ∃ status cluster spec version instances serverId secret startTime clusterStatus
      onlineInstances,
      goLookup obj "status" = .vMap status ∧
      goLookup status "cluster" = .vMap cluster ∧
      goLookup obj "spec" = .vMap spec ∧
      goLookup spec "version" = .vStr version ∧
      goLookup spec "instances" = .vInt instances ∧
      goLookup spec "baseServerId" = .vInt serverId ∧
      goLookup spec "secretName" = .vStr secret ∧
      goLookup status "createTime" = .vStr startTime ∧
      goLookup cluster "status" = .vStr clusterStatus ∧
      goLookup cluster "onlineInstances" = .vInt onlineInstances ∧
      s = { info with
        Labels := renderLabels (getLabels obj) info.Labels,
        Version := version, Instances := instances, ServerId := serverId,
        Secret := secret, StartTime := startTime, Status := clusterStatus,
        OnlineInstances := onlineInstances,
        Topology := if instances = 1 then "Standalone" else "Cluster",
        Engine := defaults.DefaultEngine, Storage := 2 } := by
  simp only [buildClusterInfo, except_bind_ok, pure, Except.pure, Except.ok.injEq] at h
  obtain ⟨status, hst, cluster, hcl, spec, hsp, version, hv, instances, hi, serverId, hb,
    secret, hsec, startTime, hct, clusterStatus, hcs, onlineInstances, hoi, hs⟩ := h
  exact ⟨status, cluster, spec, version, instances, serverId, secret, startTime,
    clusterStatus, onlineInstances, assertMap_ok.mp hst, assertMap_ok.mp hcl,
    assertMap_ok.mp hsp, assertString_ok.mp hv, assertInt64_ok.mp hi, assertInt64_ok.mp hb,
    assertString_ok.mp hsec, assertString_ok.mp hct, assertString_ok.mp hcs,
    assertInt64_ok.mp hoi, hs.symm⟩

theorem buildClusterInfo_eval (defaults : PlaygroundDefaults) (obj : GoObj)
    (info : DBClusterInfo) {status cluster spec : GoObj}
    {version secret startTime clusterStatus : String}
    {instances serverId onlineInstances : Int}
    (hst : goLookup obj "status" = .vMap status)
    (hcl : goLookup status "cluster" = .vMap cluster)
    (hsp : goLookup obj "spec" = .vMap spec)
    (hv : goLookup spec "version" = .vStr version)
    (hi : goLookup spec "instances" = .vInt instances)
    (hb : goLookup spec "baseServerId" = .vInt serverId)
    (hsec : goLookup spec "secretName" = .vStr secret)
    (hct : goLookup status "createTime" = .vStr startTime)
    (hcs : goLookup cluster "status" = .vStr clusterStatus)
    (hoi : goLookup cluster "onlineInstances" = .vInt onlineInstances) :
    buildClusterInfo defaults obj info = .ok { info with
      Labels := renderLabels (getLabels obj) info.Labels,
      Version := version, Instances := instances, ServerId := serverId,
      Secret := secret, StartTime := startTime, Status := clusterStatus,
      OnlineInstances := onlineInstances,
      Topology := if instances = 1 then "Standalone" else "Cluster",
      Engine := defaults.DefaultEngine, Storage := 2 } := by
  simp only [buildClusterInfo, except_bind_ok, pure, Except.pure, Except.ok.injEq]
  exact ⟨status, assertMap_ok.mpr hst, cluster, assertMap_ok.mpr hcl, spec,
    assertMap_ok.mpr hsp, version, assertString_ok.mpr hv, instances, assertInt64_ok.mpr hi,
    serverId, assertInt64_ok.mpr hb, secret, assertString_ok.mpr hsec,
    startTime, assertString_ok.mpr hct, clusterStatus, assertString_ok.mpr hcs,
    onlineInstances, assertInt64_ok.mpr hoi, rfl⟩

/-- C1: for every document in which the four required sub-trees (`spec`,
`status`, `status.cluster`, label set — the label set needs no hypothesis since
`GetLabels` degrades to an empty map) and all seven required fields are present
with their exact expected types, the projection succeeds with no error, the
summary carries the extracted values, and the topology is "Standalone" iff the
instance count is 1 and "Cluster" otherwise. The spec's concrete scenario
document is settled in the witness. -/
theorem C1_complete_doc_projects (defaults : PlaygroundDefaults) (obj : GoObj)
    (info : DBClusterInfo) {status cluster spec : GoObj}
    {version secret startTime clusterStatus : String}
    {instances serverId onlineInstances : Int}
    (hst : goLookup obj "status" = .vMap status)
    (hcl : goLookup status "cluster" = .vMap cluster)
    (hsp : goLookup obj "spec" = .vMap spec)
    (hv : goLookup spec "version" = .vStr version)
    (hi : goLookup spec "instances" = .vInt instances)
    (hb : goLookup spec "baseServerId" = .vInt serverId)
    (hsec : goLookup spec "secretName" = .vStr secret)
    (hct : goLookup status "createTime" = .vStr startTime)
    (hcs : goLookup cluster "status" = .vStr clusterStatus)
    (hoi : goLookup cluster "onlineInstances" = .vInt onlineInstances) :
    ∃ s, buildClusterInfo defaults obj info = .ok s ∧
      s.Version = version ∧ s.Instances = instances ∧ s.ServerId = serverId ∧
      s.Secret = secret ∧ s.StartTime = startTime ∧ s.Status = clusterStatus ∧
      s.OnlineInstances = onlineInstances ∧
      (s.Topology = "Standalone" ↔ s.Instances = 1) ∧
      (s.Instances ≠ 1 → s.Topology = "Cluster") := by
  refine ⟨_, buildClusterInfo_eval defaults obj info hst hcl hsp hv hi hb hsec hct hcs hoi,
    rfl, rfl, rfl, rfl, rfl, rfl, rfl, ?_, ?_⟩
  · show (if instances = 1 then "Standalone" else "Cluster") = "Standalone" ↔ instances = 1
    by_cases h1 : instances = 1 <;> simp [h1]
  · show instances ≠ 1 → (if instances = 1 then "Standalone" else "Cluster") = "Cluster"
    intro h1
    simp [h1]

/-- Witness for C1: the spec's scenario document projects with version
"8.0.30", instance count 1, server id 1, secret "s1", start time "t0", cluster
status "Running", online instances 1 and (via the iff) topology "Standalone". -/
theorem C1_complete_doc_projects_witness :
    ∃ s, buildClusterInfo sampleDefaults scenarioDoc (initClusterInfo sampleDefaults) = .ok s ∧
      s.Version = "8.0.30" ∧ s.Instances = 1 ∧ s.ServerId = 1 ∧ s.Secret = "s1" ∧
      s.StartTime = "t0" ∧ s.Status = "Running" ∧ s.OnlineInstances = 1 ∧
      (s.Topology = "Standalone" ↔ s.Instances = 1) ∧
      (s.Instances ≠ 1 → s.Topology = "Cluster") :=
  C1_complete_doc_projects sampleDefaults scenarioDoc (initClusterInfo sampleDefaults)
    rfl rfl rfl rfl rfl rfl rfl rfl rfl rfl

/-- C2 counterexample: two documents whose offending required fields differ
(`spec.version` absent vs `status.createTime` absent) make the projection fail
with the identical Go interface-conversion panic — so the error produced does
not name the offending field path, contrary to the claim; a summary is indeed
not produced. -/
theorem C2_panic_does_not_name_field :
    buildClusterInfo sampleDefaults docMissingVersion (initClusterInfo sampleDefaults) =
      .error "interface conversion: interface \x7b\x7d is nil, not string" ∧
    buildClusterInfo sampleDefaults docMissingCreateTime (initClusterInfo sampleDefaults) =
      .error "interface conversion: interface \x7b\x7d is nil, not string" :=
  ⟨rfl, rfl⟩

/-- C2 (amended): for every document in which a required sub-tree or one of the
seven required fields is absent or of the wrong type, the projection fails — it
aborts with a Go type-assertion panic and produces no ClusterSummary; the panic
message names the expected and actual dynamic types, not the offending field
path. -/
theorem C2_malformed_doc_fails (defaults : PlaygroundDefaults) (obj : GoObj)
    (info : DBClusterInfo) (h : requiredShape obj = false) :
    ∃ m, buildClusterInfo defaults obj info = .error m := by
  cases hb : buildClusterInfo defaults obj info with
  | error m => exact ⟨m, rfl⟩
  | ok s =>
    exfalso
    obtain ⟨status, cluster, spec, version, instances, serverId, secret, startTime,
      clusterStatus, onlineInstances, hst, hcl, hsp, hv, hi, hbs, hsec, hct, hcs, hoi, -⟩ :=
      buildClusterInfo_ok_inv hb
    simp [requiredShape, hst, hcl, hsp, hv, hi, hbs, hsec, hct, hcs, hoi] at h

/-- Witness for C2's amended theorem: the scenario document without
`spec.version` fails the shape check and the projection errors on it. -/
theorem C2_malformed_doc_fails_witness :
    requiredShape docMissingVersion = false ∧
    ∃ m, buildClusterInfo sampleDefaults docMissingVersion (initClusterInfo sampleDefaults) =
      .error m :=
  ⟨rfl, C2_malformed_doc_fails sampleDefaults docMissingVersion
    (initClusterInfo sampleDefaults) rfl⟩

/-- C6: for every successfully projected document, the summary's labels field
is the fold concatenating "key:value " over the document's label pairs in
iteration order, starting from the incoming record's labels (the empty string
in the `Run` loop). -/
theorem C6_labels_concatenation (defaults : PlaygroundDefaults) (obj : GoObj)
    (info s : DBClusterInfo) (h : buildClusterInfo defaults obj info = .ok s) :
    s.Labels = (getLabels obj).foldl
      (fun acc kv => acc ++ kv.1 ++ ":" ++ kv.2 ++ " ") info.Labels := by
  obtain ⟨_, _, _, _, _, _, _, _, _, _, _, _, _, _, _, _, _, _, _, _, hs⟩ :=
    buildClusterInfo_ok_inv h
  subst hs
  rfl

/-- Witness for C6: labels `\x7b"env":"prod"\x7d` render as "env:prod " and an
absent label set renders as "". -/
theorem C6_labels_concatenation_witness :
    envProdSummary.Labels = (getLabels docEnvProd).foldl
      (fun acc kv => acc ++ kv.1 ++ ":" ++ kv.2 ++ " ") (initClusterInfo sampleDefaults).Labels ∧
    scenarioSummary.Labels = (getLabels scenarioDoc).foldl
      (fun acc kv => acc ++ kv.1 ++ ":" ++ kv.2 ++ " ") (initClusterInfo sampleDefaults).Labels ∧
    envProdSummary.Labels = "env:prod " ∧ scenarioSummary.Labels = "" :=
  ⟨C6_labels_concatenation sampleDefaults docEnvProd (initClusterInfo sampleDefaults)
      envProdSummary rfl,
   C6_labels_concatenation sampleDefaults scenarioDoc (initClusterInfo sampleDefaults)
      scenarioSummary rfl,
   rfl, rfl⟩

theorem processInfos_cons_fetch_err (o : DescribeOptions) (defaults : PlaygroundDefaults)
    (fetch : String → String → String → Except String GoObj) (info : Info)
    (rest : List Info) (st : LoopState) {e : String}
    (hf : fetch info.Mapping o.Namespace info.Name = .error e) :
    processInfos o defaults fetch none (info :: rest) st =
      ({ st with fetchCalls := st.fetchCalls ++ [(info.Mapping, o.Namespace, info.Name)] },
       some e) := by
  simp only [processInfos]
  split
  next e2 heq =>
    rw [hf] at heq
    injection heq with h
    subst h
    rfl
  next obj heq => rw [hf] at heq; exact absurd heq (by simp)

theorem processInfos_cons_build_err (o : DescribeOptions) (defaults : PlaygroundDefaults)
    (fetch : String → String → String → Except String GoObj) (info : Info)
    (rest : List Info) (st : LoopState) {obj : GoObj} {p : String}
    (hf : fetch info.Mapping o.Namespace info.Name = .ok obj)
    (hb : buildClusterInfo defaults obj (loopInit defaults info) = .error p) :
    processInfos o defaults fetch none (info :: rest) st =
      ({ st with fetchCalls := st.fetchCalls ++ [(info.Mapping, o.Namespace, info.Name)] },
       some p) := by
  simp only [processInfos]
  split
  next e2 heq => rw [hf] at heq; exact absurd heq (by simp)
  next obj2 heq =>
    rw [hf] at heq
    injection heq with h
    subst h
    split
    next p2 heq2 =>
      rw [hb] at heq2
      injection heq2 with h2
      subst h2
      rfl
    next ci heq2 => rw [hb] at heq2; exact absurd heq2 (by simp)

theorem processInfos_cons_ok (o : DescribeOptions) (defaults : PlaygroundDefaults)
    (fetch : String → String → String → Except String GoObj) (info : Info)
    (rest : List Info) (st : LoopState) {obj : GoObj} {s : DBClusterInfo}
    (hf : fetch info.Mapping o.Namespace info.Name = .ok obj)
    (hb : buildClusterInfo defaults obj (loopInit defaults info) = .ok s) :
    processInfos o defaults fetch none (info :: rest) st =
      processInfos o defaults fetch none rest
        { st with printed := st.printed ++ [s],
                  fetchCalls := st.fetchCalls ++ [(info.Mapping, o.Namespace, info.Name)] } := by
  simp only [processInfos]
  split
  next e2 heq => rw [hf] at heq; exact absurd heq (by simp)
  next obj2 heq =>
    rw [hf] at heq
    injection heq with h
    subst h
    split
    next p2 heq2 => rw [hb] at heq2; exact absurd heq2 (by simp)
    next ci heq2 =>
      rw [hb] at heq2
      injection heq2 with h2
      subst h2
      rfl

theorem processInfos_none_allErrs (o : DescribeOptions) (defaults : PlaygroundDefaults)
    (fetch : String → String → String → Except String GoObj) (infos : List Info) :
    ∀ st : LoopState,
      (processInfos o defaults fetch none infos st).1.allErrs = st.allErrs := by
  induction infos with
  | nil => intro st; rfl
  | cons info rest ih =>
    intro st
    rcases hf : fetch info.Mapping o.Namespace info.Name with e | obj
    · rw [processInfos_cons_fetch_err o defaults fetch info rest st hf]
    · rcases hb : buildClusterInfo defaults obj (loopInit defaults info) with p | ci
      · rw [processInfos_cons_build_err o defaults fetch info rest st hf hb]
      · rw [processInfos_cons_ok o defaults fetch info rest st hf hb]
        exact ih _

theorem processInfos_fetch_ns (o : DescribeOptions) (defaults : PlaygroundDefaults)
    (fetch : String → String → String → Except String GoObj) (infos : List Info) :
    ∀ st : LoopState, (∀ c ∈ st.fetchCalls, c.2.1 = o.Namespace) →
      ∀ c ∈ (processInfos o defaults fetch none infos st).1.fetchCalls,
        c.2.1 = o.Namespace := by
  induction infos with
  | nil => exact fun st h => h
  | cons info rest ih =>
    intro st hst
    have hext : ∀ c ∈ st.fetchCalls ++ [(info.Mapping, o.Namespace, info.Name)],
        c.2.1 = o.Namespace := by
      intro c hc
      rcases List.mem_append.mp hc with h | h
      · exact hst c h
      · rw [List.mem_singleton.mp h]
    rcases hf : fetch info.Mapping o.Namespace info.Name with e | obj
    · rw [processInfos_cons_fetch_err o defaults fetch info rest st hf]
      exact hext
    · rcases hb : buildClusterInfo defaults obj (loopInit defaults info) with p | ci
      · rw [processInfos_cons_build_err o defaults fetch info rest st hf hb]
        exact hext
      · rw [processInfos_cons_ok o defaults fetch info rest st hf hb]
        exact ih _ hext

theorem processInfos_printed_pred (o : DescribeOptions) (defaults : PlaygroundDefaults)
    (fetch : String → String → String → Except String GoObj) (P : DBClusterInfo → Prop)
    (hnew : ∀ (info : Info) (obj : GoObj) (s : DBClusterInfo),
      buildClusterInfo defaults obj (loopInit defaults info) = .ok s → P s)
    (infos : List Info) :
    ∀ st : LoopState, (∀ s ∈ st.printed, P s) →
      ∀ s ∈ (processInfos o defaults fetch none infos st).1.printed, P s := by
  induction infos with
  | nil => exact fun st h => h
  | cons info rest ih =>
    intro st hst
    rcases hf : fetch info.Mapping o.Namespace info.Name with e | obj
    · rw [processInfos_cons_fetch_err o defaults fetch info rest st hf]
      exact hst
    · rcases hb : buildClusterInfo defaults obj (loopInit defaults info) with p | ci
      · rw [processInfos_cons_build_err o defaults fetch info rest st hf hb]
        exact hst
      · rw [processInfos_cons_ok o defaults fetch info rest st hf hb]
        refine ih _ ?_
        intro s hs
        rcases List.mem_append.mp hs with h | h
        · exact hst s h
        · rw [List.mem_singleton.mp h]
          exact hnew info obj ci hb

theorem Run_ok_printed (o : DescribeOptions) (defaults : PlaygroundDefaults)
    (fetch : String → String → String → Except String GoObj) (infos : List Info) :
    (Run o defaults fetch none (.ok infos)).printed =
      (processInfos o defaults fetch none infos ⟨[], [], [], []⟩).1.printed := by
  simp only [Run]
  rcases processInfos o defaults fetch none infos ⟨[], [], [], []⟩ with ⟨st, _ | e⟩ <;> rfl

theorem Run_ok_fetchCalls (o : DescribeOptions) (defaults : PlaygroundDefaults)
    (fetch : String → String → String → Except String GoObj) (infos : List Info) :
    (Run o defaults fetch none (.ok infos)).fetchCalls =
      (processInfos o defaults fetch none infos ⟨[], [], [], []⟩).1.fetchCalls := by
  simp only [Run]
  rcases processInfos o defaults fetch none infos ⟨[], [], [], []⟩ with ⟨st, _ | e⟩ <;> rfl

theorem Run_ok_allErrs (o : DescribeOptions) (defaults : PlaygroundDefaults)
    (fetch : String → String → String → Except String GoObj) (infos : List Info) :
    (Run o defaults fetch none (.ok infos)).allErrs =
      (processInfos o defaults fetch none infos ⟨[], [], [], []⟩).1.allErrs := by
  simp only [Run]
  rcases processInfos o defaults fetch none infos ⟨[], [], [], []⟩ with ⟨st, _ | e⟩ <;> rfl

/-- C4: the aggregated soft-error collection of a run is empty on every input —
the dedup/aggregation branch of the loop tests the function-level `err`
variable, which is necessarily nil when the loop is entered (the fetch's `err`
is a new, shadowing variable), so no locator-time error is ever recorded: in
the claimed scenario the code records zero errors, not exactly one. -/
theorem C4_no_soft_errors_recorded (o : DescribeOptions) (defaults : PlaygroundDefaults)
    (fetch : String → String → String → Except String GoObj)
    (rErr : Option String) (infosRes : Except String (List Info)) :
    (Run o defaults fetch rErr infosRes).allErrs = [] := by
  rcases rErr with _ | e
  · rcases infosRes with e | infos
    · rfl
    · rw [Run_ok_allErrs]
      exact processInfos_none_allErrs o defaults fetch infos ⟨[], [], [], []⟩
  · rfl

/-- C5: a run that locates zero identities (and hence records zero errors)
prints exactly one "No resources found" line — namespace-scoped when not
all-namespaces, unscoped otherwise — prints no summary, and returns a nil
aggregate error. -/
theorem C5_no_resources_found (o : DescribeOptions) (defaults : PlaygroundDefaults)
    (fetch : String → String → String → Except String GoObj) :
    Run o defaults fetch none (.ok []) =
      ⟨[], [],
       [if o.AllNamespaces then "No resources found"
        else "No resources found in " ++ o.Namespace ++ " namespace."],
       [], none⟩ :=
  rfl

theorem processInfos_ok_prefix (o : DescribeOptions) (defaults : PlaygroundDefaults)
    (fetch : String → String → String → Except String GoObj) (pre : List Info) :
    ∀ (l : List Info) (st : LoopState),
      (∀ i ∈ pre, ∃ obj s, fetch i.Mapping o.Namespace i.Name = .ok obj ∧
        buildClusterInfo defaults obj (loopInit defaults i) = .ok s) →
      ∃ printedPre : List DBClusterInfo, printedPre.length = pre.length ∧
        processInfos o defaults fetch none (pre ++ l) st =
          processInfos o defaults fetch none l
            ⟨st.printed ++ printedPre,
             st.fetchCalls ++ pre.map (fun i => (i.Mapping, o.Namespace, i.Name)),
             st.errsSet, st.allErrs⟩ := by
  induction pre with
  | nil =>
    intro l st _
    exact ⟨[], rfl, by simp⟩
  | cons i pre ih =>
    intro l st hpre
    obtain ⟨obj, s, hf, hb⟩ := hpre i (List.mem_cons_self i pre)
    obtain ⟨printedPre, hlen, heq⟩ := ih l
      ⟨st.printed ++ [s], st.fetchCalls ++ [(i.Mapping, o.Namespace, i.Name)],
       st.errsSet, st.allErrs⟩
      (fun j hj => hpre j (List.mem_cons_of_mem i hj))
    refine ⟨s :: printedPre, by simp [hlen], ?_⟩
    rw [List.cons_append, processInfos_cons_ok o defaults fetch i (pre ++ l) st hf hb, heq]
    congr 1
    simp [List.append_assoc]

/-- C3: for every batch that is a prefix of successfully fetched-and-projected
identities followed by an identity whose fetch fails, the run aborts at that
identity and returns the raw fetch error: one summary per prefix identity was
printed, the get-by-name calls are exactly those for the prefix and the failing
identity (no later identity is fetched), no line is printed to `ErrOut`, and
the error is not aggregated (the soft-error slice is empty). -/
theorem C3_fetch_failure_aborts (o : DescribeOptions) (defaults : PlaygroundDefaults)
    (fetch : String → String → String → Except String GoObj)
    (pre : List Info) (bad : Info) (rest : List Info) (e : String)
    (hpre : ∀ i ∈ pre, ∃ obj s, fetch i.Mapping o.Namespace i.Name = .ok obj ∧
      buildClusterInfo defaults obj (loopInit defaults i) = .ok s)
    (hbad : fetch bad.Mapping o.Namespace bad.Name = .error e) :
    ∃ printedPre : List DBClusterInfo, printedPre.length = pre.length ∧
      Run o defaults fetch none (.ok (pre ++ bad :: rest)) =
        ⟨printedPre,
         pre.map (fun i => (i.Mapping, o.Namespace, i.Name)) ++
           [(bad.Mapping, o.Namespace, bad.Name)],
         [], [], some e⟩ := by
  obtain ⟨printedPre, hlen, heq⟩ :=
    processInfos_ok_prefix o defaults fetch pre (bad :: rest) ⟨[], [], [], []⟩ hpre
  refine ⟨printedPre, hlen, ?_⟩
  simp only [Run, heq,
    processInfos_cons_fetch_err o defaults fetch bad rest _ hbad]
  simp

/-- Witness for C3: a batch of three identities where the fetch fails on the
second aborts with the raw error "boom" after printing one summary; the third
identity is never fetched. -/
theorem C3_fetch_failure_aborts_witness :
    (∀ i ∈ [infoA], ∃ obj s, fetchFailsOnB i.Mapping optNsA.Namespace i.Name = .ok obj ∧
      buildClusterInfo sampleDefaults obj (loopInit sampleDefaults i) = .ok s) ∧
    ∃ printedPre : List DBClusterInfo, printedPre.length = 1 ∧
      Run optNsA sampleDefaults fetchFailsOnB none (.ok [infoA, infoB, infoC]) =
        ⟨printedPre, [("m", "nsA", "a"), ("m", "nsA", "b")], [], [], some "boom"⟩ := by
  have hpre : ∀ i ∈ [infoA], ∃ obj s,
      fetchFailsOnB i.Mapping optNsA.Namespace i.Name = .ok obj ∧
      buildClusterInfo sampleDefaults obj (loopInit sampleDefaults i) = .ok s := by
    intro i hi
    rw [List.mem_singleton.mp hi]
    exact ⟨scenarioDoc, summaryA, rfl, rfl⟩
  exact ⟨hpre, C3_fetch_failure_aborts optNsA sampleDefaults fetchFailsOnB
    [infoA] infoB [infoC] "boom" hpre rfl⟩

/-- C7: every summary a run prints carries the defaults provider's constants in
its rootUser, port and engine fields and the hardcoded 2 in its storage field,
so these four fields never depend on the fetched document: any two printed
summaries (from any two runs with the same defaults) agree on them. -/
theorem C7_constant_fields (o : DescribeOptions) (defaults : PlaygroundDefaults)
    (fetch : String → String → String → Except String GoObj)
    (rErr : Option String) (infosRes : Except String (List Info)) :
    ∀ s ∈ (Run o defaults fetch rErr infosRes).printed,
      s.RootUser = defaults.DefaultRootUser ∧ s.DBPort = defaults.DefaultPort ∧
      s.Engine = defaults.DefaultEngine ∧ s.Storage = 2 := by
  have hnil : ∀ s ∈ ([] : List DBClusterInfo),
      s.RootUser = defaults.DefaultRootUser ∧ s.DBPort = defaults.DefaultPort ∧
      s.Engine = defaults.DefaultEngine ∧ s.Storage = 2 :=
    fun s hs => absurd hs (List.not_mem_nil s)
  rcases rErr with _ | e
  · rcases infosRes with e | infos
    · exact hnil
    · intro s hs
      rw [Run_ok_printed] at hs
      refine processInfos_printed_pred o defaults fetch _ ?_ infos ⟨[], [], [], []⟩ hnil s hs
      intro info obj t ht
      obtain ⟨_, _, _, _, _, _, _, _, _, _, _, _, _, _, _, _, _, _, _, _, hts⟩ :=
        buildClusterInfo_ok_inv ht
      subst hts
      exact ⟨rfl, rfl, rfl, rfl⟩
  · exact hnil

/-- Witness for C7: the summary printed by a concrete one-identity run carries
the sample defaults' root user, port and engine, and storage 2. -/
theorem C7_constant_fields_witness :
    summaryA.RootUser = sampleDefaults.DefaultRootUser ∧
    summaryA.DBPort = sampleDefaults.DefaultPort ∧
    summaryA.Engine = sampleDefaults.DefaultEngine ∧ summaryA.Storage = 2 :=
  C7_constant_fields optNsA sampleDefaults fetchFailsOnB none (.ok [infoA])
    summaryA (List.mem_singleton.mpr rfl)

/-- C9: every get-by-name call a run issues targets the command-level namespace
`o.Namespace` — never the located identity's own namespace — while the printed
summary's namespace field comes from the identity; the concrete conjuncts show
a run whose identity namespace "id-ns" differs from the fetched namespace
"cmd-ns". -/
theorem C9_fetch_namespace_mismatch :
    (∀ (o : DescribeOptions) (defaults : PlaygroundDefaults)
      (fetch : String → String → String → Except String GoObj)
      (rErr : Option String) (infosRes : Except String (List Info))
      (c : String × String × String),
      c ∈ (Run o defaults fetch rErr infosRes).fetchCalls → c.2.1 = o.Namespace) ∧
    (Run optCmdNs sampleDefaults fetchAlwaysOk none (.ok [infoDiff])).fetchCalls =
      [("m", "cmd-ns", "c1")] ∧
    (Run optCmdNs sampleDefaults fetchAlwaysOk none (.ok [infoDiff])).printed.map
      DBClusterInfo.DBNamespace = ["id-ns"] := by
  refine ⟨?_, rfl, rfl⟩
  intro o defaults fetch rErr infosRes c hc
  rcases rErr with _ | e
  · rcases infosRes with e | infos
    · exact absurd hc (List.not_mem_nil c)
    · rw [Run_ok_fetchCalls] at hc
      exact processInfos_fetch_ns o defaults fetch infos ⟨[], [], [], []⟩
        (fun c hc => absurd hc (List.not_mem_nil c)) c hc
  · exact absurd hc (List.not_mem_nil c)

/-- Witness for C9: the single call of the concrete run indeed targets the
command-level namespace. -/
theorem C9_fetch_namespace_mismatch_witness :
    (("m", "cmd-ns", "c1") : String × String × String).2.1 = optCmdNs.Namespace :=
  C9_fetch_namespace_mismatch.1 optCmdNs sampleDefaults fetchAlwaysOk none
    (.ok [infoDiff]) ("m", "cmd-ns", "c1") (List.mem_singleton.mpr rfl)

/-- C8: with no resource name supplied, `Complete` fails immediately with the
usage error, performing no external call (no kubeconfig read, no REST config,
no client construction) and leaving the options unmodified. -/
theorem C8_empty_args_fail_fast (f : Factory) (o : DescribeOptions) :
    Complete f o [] =
      (o, some "You must specify the database cluster name to describe.", []) :=
  rfl

/-- C10: when obtaining the REST configuration fails during `Complete`, it
returns nil (reporting success) without constructing the dynamic client — the
source's `return nil` on that branch swallows the configuration error. -/
theorem C10_config_error_swallowed (f : Factory) (o : DescribeOptions)
    (args : List String) (ns : String) (enforce : Bool) (e : String)
    (hargs : args ≠ [])
    (hns : f.NamespaceResult = .ok (ns, enforce))
    (hcfg : f.RESTConfigResult = .error e) :
    (Complete f o args).2.1 = none ∧
    (Complete f o args).1.clientSet = o.clientSet ∧
    (Complete f o args).2.2 = [IOCall.namespaceCall, IOCall.restConfigCall] := by
  obtain ⟨a, as, rfl⟩ : ∃ a as, args = a :: as := by
    cases args with
    | nil => exact absurd rfl hargs
    | cons a as => exact ⟨a, as, rfl⟩
  by_cases h : o.AllNamespaces <;>
    simp [Complete, hns, hcfg, h]

/-- Witness for C10: a concrete factory whose REST-config call fails makes
`Complete` report success with the client left unconstructed. -/
theorem C10_config_error_swallowed_witness :
    (Complete factoryBadConfig {} ["mycluster"]).2.1 = none ∧
    (Complete factoryBadConfig {} ["mycluster"]).1.clientSet =
      ({} : DescribeOptions).clientSet ∧
    (Complete factoryBadConfig {} ["mycluster"]).2.2 =
      [IOCall.namespaceCall, IOCall.restConfigCall] :=
  C10_config_error_swallowed factoryBadConfig {} ["mycluster"] "ns1" true "no config"
    (List.cons_ne_nil _ _) rfl rfl

end OpenCli
